import Mathlib

/-
Verification of the simulation core of the FPS game in src/fps_game.py
(vector math, enemies, particles, weapon/ammo state machine, raycast combat
resolution, session controller).

Modelling conventions:
* Python floats are modelled exactly by rationals (ℚ); the game logic only
  adds, subtracts, multiplies and compares them, so the control flow is the
  same.  Python ints (ammo, reserve, score) are modelled by ℤ.
* The source compares Euclidean lengths (computed with math.sqrt) against
  nonnegative bounds.  Since both sides of every such comparison are
  nonnegative, the model compares squared lengths against squared bounds,
  which is equivalent (`a < b ↔ a² < b²` for `0 ≤ a`, `0 ≤ b`); this keeps
  every definition computable over ℚ.  The one place where the square root
  itself matters, Vector3.normalize, is additionally modelled exactly over ℝ
  (structure Vector3R below).
* Calls to random.uniform / random.choice are modelled as oracle inputs
  (the Env structures below): each theorem quantifies over, or supplies,
  the values the RNG would have produced.
* Trigonometry (Camera.get_forward) only produces the pellet direction fed
  to raycast; the per-pellet direction is therefore an oracle input as well.
-/

set_option linter.unusedVariables false

namespace FPS

/-- Vector type over ℚ, mirroring class Vector3 of src/fps_game.py
(componentwise add, sub, scalar mul, dot; squared length in place of
`length()` per the squared-comparison convention above). -/
structure Vector3 where
  x : ℚ
  y : ℚ
  z : ℚ
deriving DecidableEq

namespace Vector3

/-- Vector3.__add__ -/
def add (a b : Vector3) : Vector3 := ⟨a.x + b.x, a.y + b.y, a.z + b.z⟩

/-- Vector3.__sub__ -/
def sub (a b : Vector3) : Vector3 := ⟨a.x - b.x, a.y - b.y, a.z - b.z⟩

/-- Vector3.__mul__ (scalar) -/
def smul (a : Vector3) (c : ℚ) : Vector3 := ⟨a.x * c, a.y * c, a.z * c⟩

/-- The square of Vector3.length(): x² + y² + z² (no square root taken;
lengths only ever face comparisons against nonnegative bounds). -/
def lengthSq (a : Vector3) : ℚ := a.x ^ 2 + a.y ^ 2 + a.z ^ 2

/-- Vector3.dot -/
def dot (a b : Vector3) : ℚ := a.x * b.x + a.y * b.y + a.z * b.z

instance : Add Vector3 := ⟨add⟩
instance : Sub Vector3 := ⟨sub⟩
instance : HMul Vector3 ℚ Vector3 := ⟨smul⟩

end Vector3

/-- Vector type over ℝ: exact model of Vector3.length() and
Vector3.normalize() from src/fps_game.py lines 73-80, square root included. -/
structure Vector3R where
  x : ℝ
  y : ℝ
  z : ℝ

/-- Vector3.length(): math.sqrt(x² + y² + z²). -/
noncomputable def Vector3R.length (v : Vector3R) : ℝ :=
  Real.sqrt (v.x ^ 2 + v.y ^ 2 + v.z ^ 2)

open Classical in
/-- Vector3.normalize(): divide each component by the length when the
length is positive, otherwise return the zero vector (lines 76-80). -/
noncomputable def Vector3R.normalize (v : Vector3R) : Vector3R :=
  if v.length > 0 then ⟨v.x / v.length, v.y / v.length, v.z / v.length⟩
  else ⟨0, 0, 0⟩

/-- Weapon kinds: the three keys of the WEAPONS dict. -/
inductive WKind
  | pistol
  | rifle
  | shotgun
deriving DecidableEq

/-- dataclass WeaponConfig (lines 40-48). -/
structure WeaponConfig where
  name : String
  damage : ℚ
  fire_rate : ℚ
  max_ammo : ℤ
  reload_time : ℚ
  spread : ℚ
  pellets : ℕ

/-- The WEAPONS table (lines 51-55). -/
def WEAPONS : WKind → WeaponConfig
  | .pistol => ⟨"Pistol", 35, 3/10, 12, 3/2, 1/100, 1⟩
  | .rifle => ⟨"Rifle", 25, 3/20, 30, 2, 1/200, 1⟩
  | .shotgun => ⟨"Shotgun", 20, 4/5, 8, 5/2, 1/20, 6⟩

/-- Enemy kinds (strings 'normal' / 'fast' / 'tank' in the source). -/
inductive EType
  | normal
  | fast
  | tank
deriving DecidableEq

/-- Per-kind health set in Enemy.__init__ (lines 119-139). -/
def EType.maxHealth : EType → ℚ
  | .normal => 100
  | .fast => 50
  | .tank => 150

/-- Per-kind speed set in Enemy.__init__. -/
def EType.speed : EType → ℚ
  | .normal => 1
  | .fast => 2
  | .tank => 1/2

/-- Per-kind size set in Enemy.__init__. -/
def EType.size : EType → ℚ
  | .normal => 1
  | .fast => 4/5
  | .tank => 3/2

/-- Per-kind score value set in Enemy.__init__. -/
def EType.scoreVal : EType → ℤ
  | .normal => 10
  | .fast => 5
  | .tank => 15

/-- class Enemy: mutable state (position, alive, health, wander timer and
target).  The per-kind constants (health ceiling, speed, size, score,
color) are set once from enemy_type in Enemy.__init__ and never
reassigned, so they are modelled as functions of `enemy_type`; color is
render-only and omitted. -/
structure Enemy where
  position : Vector3
  enemy_type : EType
  alive : Bool
  health : ℚ
  move_timer : ℚ
  move_target : Option Vector3
deriving DecidableEq

/-- self.size of an enemy. -/
def Enemy.size (e : Enemy) : ℚ := e.enemy_type.size

/-- self.speed of an enemy. -/
def Enemy.speed (e : Enemy) : ℚ := e.enemy_type.speed

/-- self.score of an enemy. -/
def Enemy.score (e : Enemy) : ℤ := e.enemy_type.scoreVal

/-- Enemy.__init__(position, enemy_type): alive, full health, zeroed
wander timer, no wander target (lines 114-142). -/
def Enemy.spawn (position : Vector3) (t : EType) : Enemy :=
  ⟨position, t, true, t.maxHealth, 0, none⟩

/-- Enemy.hit(damage) (lines 144-149): subtract damage from health; when
health drops to ≤ 0, clear alive and report the kill. -/
def Enemy.hit (e : Enemy) (damage : ℚ) : Enemy × Bool :=
  let h := e.health - damage
  if h ≤ 0 then ({e with health := h, alive := false}, true)
  else ({e with health := h}, false)

/-- Enemy.update(dt, player_pos) (lines 151-167).  `wander_off` is the
oracle for the random.uniform offset picked when the wander timer crosses
2.0; `move_dir` is the oracle for `direction.normalize()` (the normalized
horizontal direction involves an irrational square root).  The source's
`dist > 0.5` test is modelled as `lengthSq > (1/2)²`. -/
def Enemy.update (dt : ℚ) (player_pos wander_off move_dir : Vector3)
    (e : Enemy) : Enemy :=
  if e.alive = false then e
  else
    let t := e.move_timer + dt
    let e1 :=
      if t > 2 then
        {e with move_timer := 0, move_target := some (player_pos + wander_off)}
      else {e with move_timer := t}
    match e1.move_target with
    | none => e1
    | some target =>
      let direction := target - e1.position
      let direction := {direction with y := 0}
      if direction.lengthSq > (1/2) ^ 2 then
        {e1 with position := e1.position + move_dir * (e1.speed * dt)}
      else e1

/-- class Particle (lines 215-223); color is an abstract code (the source
picks one of three fixed RGB triples, render-only). -/
structure Particle where
  position : Vector3
  velocity : Vector3
  color : ℕ
  lifetime : ℚ
  max_lifetime : ℚ
  alive : Bool
deriving DecidableEq

/-- Particle.update(dt) (lines 225-232): decrement lifetime, die at ≤ 0,
otherwise integrate position and apply gravity to velocity. -/
def Particle.update (dt : ℚ) (p : Particle) : Particle :=
  let lt := p.lifetime - dt
  if lt ≤ 0 then {p with lifetime := lt, alive := false}
  else
    {p with lifetime := lt,
            position := p.position + p.velocity * dt,
            velocity := {p.velocity with y := p.velocity.y - 10 * dt}}

/-- An entry of self.kill_feed: {'message': ..., 'time': 3.0}. -/
structure KFItem where
  message : String
  time : ℚ
deriving DecidableEq

/-- enum GameState (lines 34-38). -/
inductive GameState
  | MENU
  | PLAYING
  | PAUSED
  | GAME_OVER
deriving DecidableEq

/-- The two game modes passed to start_game. -/
inductive Mode
  | target
  | survival
deriving DecidableEq

/-- Mutable per-weapon dict: {'ammo', 'reserve', 'cooldown', 'reloading'}. -/
structure WState where
  ammo : ℤ
  reserve : ℤ
  cooldown : ℚ
  reloading : ℚ
deriving DecidableEq

/-- Oracle for spawn_wave randomness: `pos i` stands for the ring position
(distance·cos θ, 1, distance·sin θ) and `etype i` for random.choice of the
i-th spawned enemy. -/
structure SpawnEnv where
  pos : ℕ → Vector3
  etype : ℕ → EType

/-- Oracle for one simulation tick: per-enemy wander offsets and
normalized move directions (indexed by position in the enemy list), plus
the spawn oracle used if a new wave spawns this tick. -/
structure TickEnv where
  wander : ℕ → Vector3
  moveDir : ℕ → Vector3
  spawnEnv : SpawnEnv

/-- Oracle for one pellet of a fire intent: `dir` is the spread-adjusted,
normalized fire direction; `burst i` gives (velocity, color, lifetime) of
the i-th particle of the explosion spawned if this pellet kills. -/
structure PelletEnv where
  dir : Vector3
  burst : ℕ → Vector3 × ℕ × ℚ

/-- Oracle for a whole fire intent: one PelletEnv per pellet index. -/
structure ShootEnv where
  pellet : ℕ → PelletEnv

/-- class Game (lines 245-270): the session controller state.  Camera is
represented by its stored position/yaw/pitch (forward vectors are derived
via trigonometry only to produce oracle-modelled fire directions).
`max_health` is the constant 100 and folded into comparisons. -/
structure Game where
  state : GameState
  cameraPos : Vector3
  yaw : ℚ
  pitch : ℚ
  enemies : List Enemy
  particles : List Particle
  score : ℤ
  kills : ℕ
  wave : ℕ
  player_health : ℚ
  current_weapon : WKind
  weapons : WKind → WState
  game_mode : Option Mode
  enemies_per_wave : ℕ
  shake_amount : ℚ
  shake_timer : ℚ
  kill_feed : List KFItem

/-- The starting weapon dicts (lines 260-264 and 283-285). -/
def initWeapons : WKind → WState
  | .pistol => ⟨12, 36, 0, 0⟩
  | .rifle => ⟨30, 90, 0, 0⟩
  | .shotgun => ⟨8, 24, 0, 0⟩

/-- Game.__init__ (lines 247-270). -/
def Game.init : Game :=
  { state := .MENU, cameraPos := ⟨0, 2, 0⟩, yaw := 0, pitch := 0,
    enemies := [], particles := [], score := 0, kills := 0, wave := 0,
    player_health := 100, current_weapon := .pistol, weapons := initWeapons,
    game_mode := none, enemies_per_wave := 5, shake_amount := 0,
    shake_timer := 0, kill_feed := [] }

/-- Write one weapon's dict back into the weapons map. -/
def Game.setW (g : Game) (k : WKind) (w : WState) : Game :=
  {g with weapons := fun k2 => if k2 = k then w else g.weapons k2}

/-- Whether `proj` beats the best candidate so far (`proj < closest_dist`
with closest_dist initialised to float('inf'), i.e. `none`). -/
def projLt (proj : ℚ) : Option (ℕ × ℚ) → Bool
  | none => true
  | some pr => decide (proj < pr.2)

/-- The loop body of Game.raycast (lines 377-392) as a fold over the enemy
list with running index `i` and best (index, projection) so far.  Skips
dead enemies and negative projections; accepts when the closest point on
the ray is within the enemy's size (squared comparison) and the
projection beats the best so far. -/
def raycastAux (origin direction : Vector3) :
    List Enemy → ℕ → Option (ℕ × ℚ) → Option (ℕ × ℚ)
  | [], _, best => best
  | e :: rest, i, best =>
    if e.alive = true then
      let proj := (e.position - origin).dot direction
      if proj < 0 then raycastAux origin direction rest (i + 1) best
      else
        let closest_point := origin + direction * proj
        let dsq := (closest_point - e.position).lengthSq
        if dsq < e.size ^ 2 ∧ projLt proj best = true then
          raycastAux origin direction rest (i + 1) (some (i, proj))
        else raycastAux origin direction rest (i + 1) best
    else raycastAux origin direction rest (i + 1) best

/-- Game.raycast(origin, direction) (lines 373-394), returning the index
of the chosen enemy in the list (the source returns the object itself;
the index identifies it in the immutable-list model). -/
def raycast (origin direction : Vector3) (enemies : List Enemy) : Option ℕ :=
  (raycastAux origin direction enemies 0 none).map Prod.fst

/-- The projection `to_enemy.dot(direction)` computed by raycast for an
enemy. -/
def rayProj (origin direction : Vector3) (e : Enemy) : ℚ :=
  (e.position - origin).dot direction

/-- The squared distance from the closest point on the ray to the enemy's
position, as computed by raycast.  For a normalized direction this is the
squared perpendicular distance from the enemy to the ray line. -/
def rayDistSq (origin direction : Vector3) (e : Enemy) : ℚ :=
  ((origin + direction * rayProj origin direction e) - e.position).lengthSq

/-- An enemy passing all three raycast filters: alive, nonnegative
projection, and closest-point distance below its size. -/
def hitCand (origin direction : Vector3) (e : Enemy) : Prop :=
  e.alive = true ∧ 0 ≤ rayProj origin direction e ∧
    rayDistSq origin direction e < e.size ^ 2

instance (origin direction : Vector3) (e : Enemy) :
    Decidable (hitCand origin direction e) := by
  unfold hitCand; infer_instance

/-- Game.create_explosion(position) (lines 396-408): 15 particles at the
death position; velocities, colors and lifetimes come from the oracle. -/
def explosionBurst (position : Vector3) (burst : ℕ → Vector3 × ℕ × ℚ) :
    List Particle :=
  (List.range 15).map fun i =>
    { position := position, velocity := (burst i).1, color := (burst i).2.1,
      lifetime := (burst i).2.2, max_lifetime := (burst i).2.2, alive := true }

/-- Game.screen_shake(amount) (lines 410-412). -/
def Game.screen_shake (g : Game) (amount : ℚ) : Game :=
  {g with shake_amount := amount, shake_timer := 1/5}

/-- Game.add_kill_feed(message) (lines 414-415). -/
def Game.add_kill_feed (g : Game) (message : String) : Game :=
  {g with kill_feed := g.kill_feed ++ [⟨message, 3⟩]}

/-- The kill-feed message f'Eliminated {type.title()} Enemy'. -/
def elimMsg : EType → String
  | .normal => "Eliminated Normal Enemy"
  | .fast => "Eliminated Fast Enemy"
  | .tank => "Eliminated Tank Enemy"

/-- One iteration of the pellet loop in Game.shoot (lines 333-351):
raycast the oracle direction from the camera; on a hit apply the weapon
damage, and on a kill add score, kill count, kill-feed entry and the
explosion burst. -/
def Game.shootPellet (g : Game) (pe : PelletEnv) (damage : ℚ) : Game :=
  match raycast g.cameraPos pe.dir g.enemies with
  | none => g
  | some i =>
    match g.enemies[i]? with
    | none => g
    | some e =>
      let hk := e.hit damage
      let g1 := {g with enemies := g.enemies.set i hk.1}
      if hk.2 = true then
        let g2 := {g1 with score := g1.score + e.score, kills := g1.kills + 1}
        let g3 := g2.add_kill_feed (elimMsg e.enemy_type)
        {g3 with particles := g3.particles ++ explosionBurst hk.1.position pe.burst}
      else g1

/-- Game.shoot (lines 322-351): reject when cooldown > 0 or reloading > 0
or ammo ≤ 0; otherwise spend one round, start the cooldown, pulse the
screen shake and run the pellet loop. -/
def Game.shoot (g : Game) (env : ShootEnv) : Game :=
  let wd := g.weapons g.current_weapon
  let config := WEAPONS g.current_weapon
  if 0 < wd.cooldown ∨ 0 < wd.reloading ∨ wd.ammo ≤ 0 then g
  else
    let g1 := g.setW g.current_weapon
      {wd with ammo := wd.ammo - 1, cooldown := config.fire_rate}
    let g2 := g1.screen_shake (3/20)
    (List.range config.pellets).foldl
      (fun gg p => gg.shootPellet (env.pellet p) config.damage) g2

/-- Game.reload (lines 353-360): no-op when already reloading, magazine
full, or reserve empty; otherwise start the reload timer. -/
def Game.reload (g : Game) : Game :=
  let wd := g.weapons g.current_weapon
  let config := WEAPONS g.current_weapon
  if 0 < wd.reloading ∨ wd.ammo = config.max_ammo ∨ wd.reserve ≤ 0 then g
  else g.setW g.current_weapon {wd with reloading := config.reload_time}

/-- Game.finish_reload (lines 362-371).  Note that the source reads and
writes self.weapons[self.current_weapon]: the refill always lands on the
currently selected weapon, whichever weapon's timer triggered the call. -/
def Game.finish_reload (g : Game) : Game :=
  let wd := g.weapons g.current_weapon
  let config := WEAPONS g.current_weapon
  let ammo_needed := config.max_ammo - wd.ammo
  let ammo_to_reload := min ammo_needed wd.reserve
  g.setW g.current_weapon
    {wd with ammo := wd.ammo + ammo_to_reload,
             reserve := wd.reserve - ammo_to_reload, reloading := 0}

/-- One weapon's slice of the timer loop in Game.update (lines 421-427):
decrement a positive cooldown by dt; decrement a positive reload timer by
dt and, when it crosses ≤ 0, call finish_reload. -/
def Game.tickWeapon (g : Game) (dt : ℚ) (k : WKind) : Game :=
  let wd := g.weapons k
  let wd1 := if 0 < wd.cooldown then {wd with cooldown := wd.cooldown - dt} else wd
  if 0 < wd1.reloading then
    let wd2 := {wd1 with reloading := wd1.reloading - dt}
    let g1 := g.setW k wd2
    if wd2.reloading ≤ 0 then g1.finish_reload else g1
  else g.setW k wd1

/-- The weapon phase of Game.update (lines 421-431): the timer loop over
the dict values in insertion order (pistol, rifle, shotgun), then the
auto-reload check on the currently selected weapon. -/
def Game.tickWeapons (g : Game) (dt : ℚ) : Game :=
  let g1 := ((g.tickWeapon dt .pistol).tickWeapon dt .rifle).tickWeapon dt .shotgun
  let wd := g1.weapons g1.current_weapon
  if wd.ammo = 0 ∧ wd.reloading = 0 ∧ 0 < wd.reserve then g1.reload else g1

/-- The fixed 8-position target layout of Game.spawn_targets
(lines 298-305). -/
def targetPositions : List Vector3 :=
  [⟨0, 1, 10⟩, ⟨-5, 1, 8⟩, ⟨5, 1, 8⟩, ⟨-3, 1, 12⟩,
   ⟨3, 1, 12⟩, ⟨0, 1, 15⟩, ⟨-7, 1, 10⟩, ⟨7, 1, 10⟩]

/-- Game.spawn_targets (lines 298-305). -/
def Game.spawn_targets (g : Game) : Game :=
  {g with enemies := g.enemies ++ targetPositions.map (fun p => Enemy.spawn p .normal)}

/-- The kill-feed message f'Wave {wave} Starting!'. -/
def waveMsg (n : ℕ) : String := "Wave " ++ toString n ++ " Starting!"

/-- Game.spawn_wave (lines 307-320): announce the wave, append
enemies_per_wave oracle-positioned enemies, then grow enemies_per_wave
by 2. -/
def Game.spawn_wave (g : Game) (env : SpawnEnv) : Game :=
  let g1 := g.add_kill_feed (waveMsg g.wave)
  let g2 := {g1 with enemies := g1.enemies ++
    (List.range g1.enemies_per_wave).map (fun i => Enemy.spawn (env.pos i) (env.etype i))}
  {g2 with enemies_per_wave := g2.enemies_per_wave + 2}

/-- Game.start_game(mode) (lines 272-296): reset score/kills/wave/health,
clear entity and feed lists, reset every weapon and the camera, then do
the mode's initial spawn.  enemies_per_wave is not reset. -/
def Game.start_game (g : Game) (mode : Mode) (env : SpawnEnv) : Game :=
  let g1 : Game :=
    { g with
      game_mode := some mode, state := .PLAYING, score := 0, kills := 0,
      wave := 0, player_health := 100, enemies := [], particles := [],
      kill_feed := [], weapons := initWeapons, current_weapon := .pistol,
      cameraPos := ⟨0, 2, 0⟩, yaw := 0, pitch := 0 }
  match mode with
  | .target => g1.spawn_targets
  | .survival => ({g1 with wave := 1}).spawn_wave env

/-- The enemy-update loop of Game.update (lines 433-434), feeding each
enemy its oracle wander offset and move direction by list position. -/
def updEnemies (dt : ℚ) (player_pos : Vector3) (env : TickEnv) :
    ℕ → List Enemy → List Enemy
  | _, [] => []
  | i, e :: rest =>
    Enemy.update dt player_pos (env.wander i) (env.moveDir i) e ::
      updEnemies dt player_pos env (i + 1) rest

/-- The entity phase of Game.update (lines 433-453): update and filter
enemies, particles and kill feed, run down the shake timer, then the
mode-specific respawn when the live-enemy list is empty. -/
def Game.tickRest (g : Game) (dt : ℚ) (env : TickEnv) : Game :=
  let g1 : Game := {g with enemies := updEnemies dt g.cameraPos env 0 g.enemies}
  let g2 : Game := {g1 with enemies := g1.enemies.filter (fun e => e.alive)}
  let g3 : Game := {g2 with particles := (g2.particles.map (Particle.update dt)).filter (fun p => p.alive)}
  let g4 : Game := {g3 with kill_feed :=
    (g3.kill_feed.map (fun it => {it with time := it.time - dt})).filter (fun it => 0 < it.time)}
  let g5 : Game := if 0 < g4.shake_timer then {g4 with shake_timer := g4.shake_timer - dt} else g4
  if g5.game_mode = some Mode.survival ∧ g5.enemies.length = 0 then
    ({g5 with wave := g5.wave + 1}).spawn_wave env.spawnEnv
  else if g5.game_mode = some Mode.target ∧ g5.enemies.length = 0 then
    g5.spawn_targets
  else g5

/-- Game.update(dt) (lines 417-453): a no-op unless PLAYING; otherwise the
weapon phase followed by the entity phase. -/
def Game.update (g : Game) (dt : ℚ) (env : TickEnv) : Game :=
  if g.state = .PLAYING then (g.tickWeapons dt).tickRest dt env else g

/-- The player intents delivered by the main loop (lines 596-657):
simulation ticks, fire, reload, weapon select, mode start, and the
pause-state transitions. -/
inductive Action
  | tick (dt : ℚ) (env : TickEnv)
  | fire (env : ShootEnv)
  | reloadKey
  | switch (k : WKind)
  | start (mode : Mode) (env : SpawnEnv)
  | pause
  | resume
  | toMenu

/-- One intent applied with the main loop's state guards: fire/reload/
switch only while PLAYING, start only from the MENU, the pause keys as in
lines 603-649. -/
def Game.step (g : Game) : Action → Game
  | .tick dt env => g.update dt env
  | .fire env => if g.state = .PLAYING then g.shoot env else g
  | .reloadKey => if g.state = .PLAYING then g.reload else g
  | .switch k => if g.state = .PLAYING then {g with current_weapon := k} else g
  | .start mode env => if g.state = .MENU then g.start_game mode env else g
  | .pause => if g.state = .PLAYING then {g with state := .PAUSED} else g
  | .resume => if g.state = .PAUSED then {g with state := .PLAYING} else g
  | .toMenu => if g.state = .PAUSED then {g with state := .MENU} else g

/-- A whole session: fold a list of intents over the state. -/
def Game.run (g : Game) : List Action → Game
  | [] => g
  | a :: rest => (g.step a).run rest

/-- An action respects the frame clock: tick deltas are nonnegative. -/
def Action.dtOk : Action → Bool
  | .tick dt _ => decide (0 ≤ dt)
  | _ => true

/-- The claimed invariant of the weapon map: every magazine within
0..max_ammo and every reserve nonnegative. -/
def WeaponInv (g : Game) : Prop :=
  ∀ k : WKind,
    0 ≤ (g.weapons k).ammo ∧ (g.weapons k).ammo ≤ (WEAPONS k).max_ammo ∧
      0 ≤ (g.weapons k).reserve

/-- A concrete spawn oracle: every spawned enemy is a normal enemy at
(0, 1, 10). -/
def env0 : SpawnEnv := ⟨fun _ => ⟨0, 1, 10⟩, fun _ => .normal⟩

/-- A concrete tick oracle: zero wander offsets and move directions. -/
def tenv0 : TickEnv := ⟨fun _ => ⟨0, 0, 0⟩, fun _ => ⟨0, 0, 0⟩, env0⟩

/-- A concrete fire oracle: every pellet goes straight up (missing the
env0 enemies, which sit at negative projection for that direction). -/
def senv0 : ShootEnv := ⟨fun _ => ⟨⟨0, 1, 0⟩, fun _ => (⟨0, 0, 0⟩, 0, 1/2)⟩⟩

/-- A session in which the rifle is mid-reload while the pistol is
selected when the reload timer expires: start survival, switch to the
rifle, fire once (so it is no longer full), let the cooldown pass, start
its reload, switch back to the pistol, fire the pistol once, then tick
2.1 s so the rifle's 2.0 s reload timer crosses zero. -/
def actsReloadSwitch : List Action :=
  [.start .survival env0, .switch .rifle, .fire senv0, .tick (1/5) tenv0,
   .reloadKey, .switch .pistol, .fire senv0, .tick (21/10) tenv0]

/-- Fire the pistol (cooldown 0.3 s) then tick 0.5 s: the tick overshoots
the cooldown. -/
def actsOvershoot : List Action :=
  [.start .survival env0, .fire senv0, .tick (1/2) tenv0]

/-- A session with the rifle mid-reload (2.0 s remaining) and the pistol
selected. -/
def gRel : Game :=
  Game.init.run
    [.start .survival env0, .switch .rifle, .fire senv0, .tick (1/5) tenv0,
     .reloadKey, .switch .pistol]

/-- A fast enemy at a given position worn down to 10 health (reachable:
50 - 2·20 after two shotgun pellet hits). -/
def wornFast (p : Vector3) : Enemy := { Enemy.spawn p .fast with health := 10 }

/-- Six worn-down fast enemies at distance 5 along six distinct rational
unit directions from the camera at (0, 2, 0). -/
def sixEnemies : List Enemy :=
  [wornFast ⟨0, 2, -5⟩, wornFast ⟨3, 2, -4⟩, wornFast ⟨4, 2, -3⟩,
   wornFast ⟨-3, 2, -4⟩, wornFast ⟨-4, 2, -3⟩, wornFast ⟨0, 5, -4⟩]

/-- The six pellet directions, one pointing exactly at each enemy. -/
def dirsSix : List Vector3 :=
  [⟨0, 0, -1⟩, ⟨3/5, 0, -4/5⟩, ⟨4/5, 0, -3/5⟩,
   ⟨-3/5, 0, -4/5⟩, ⟨-4/5, 0, -3/5⟩, ⟨0, 3/5, -4/5⟩]

/-- Fire oracle sending pellet i along dirsSix[i]. -/
def senvSix : ShootEnv :=
  ⟨fun i => ⟨dirsSix.getD i ⟨0, 0, 0⟩, fun _ => (⟨0, 0, 0⟩, 0, 1/2)⟩⟩

/-- A playing session holding the shotgun with the six worn enemies up. -/
def gSix : Game :=
  { Game.init with state := .PLAYING, game_mode := some .survival,
                   current_weapon := .shotgun, enemies := sixEnemies }

/-- A playing session holding the shotgun against a single full-health
tank enemy straight ahead. -/
def gTank : Game :=
  { Game.init with state := .PLAYING, game_mode := some .survival,
                   current_weapon := .shotgun,
                   enemies := [Enemy.spawn ⟨0, 2, -5⟩ .tank] }

/-- Fire oracle sending all pellets straight at the tank. -/
def senvTank : ShootEnv := ⟨fun _ => ⟨⟨0, 0, -1⟩, fun _ => (⟨0, 0, 0⟩, 0, 1/2)⟩⟩

/-- A fresh survival session (wave 1, five enemies up). -/
def gWave1 : Game := Game.init.step (.start .survival env0)

/-- The same session with every wave-1 enemy eliminated. -/
def gWave1Dead : Game :=
  {gWave1 with enemies := gWave1.enemies.map (fun e => {e with alive := false})}

/-- A playing session whose pistol is on cooldown (just fired). -/
def gOnCooldown : Game := Game.init.run [.start .survival env0, .fire senv0]

/-- A nearer enemy on the -z axis. -/
def eNear : Enemy := Enemy.spawn ⟨0, 2, -3⟩ .normal

/-- A farther enemy on the same axis. -/
def eFar : Enemy := Enemy.spawn ⟨0, 2, -9⟩ .normal

/-- Far enemy first in list order; both on the ray. -/
def rayEnemies : List Enemy := [eFar, eNear]

section VectorLemmas

@[simp] theorem Vector3.add_x (a b : Vector3) : (a + b).x = a.x + b.x := rfl
@[simp] theorem Vector3.add_y (a b : Vector3) : (a + b).y = a.y + b.y := rfl
@[simp] theorem Vector3.add_z (a b : Vector3) : (a + b).z = a.z + b.z := rfl
@[simp] theorem Vector3.sub_x (a b : Vector3) : (a - b).x = a.x - b.x := rfl
@[simp] theorem Vector3.sub_y (a b : Vector3) : (a - b).y = a.y - b.y := rfl
@[simp] theorem Vector3.sub_z (a b : Vector3) : (a - b).z = a.z - b.z := rfl
@[simp] theorem Vector3.smul_x (a : Vector3) (c : ℚ) : (a * c).x = a.x * c := rfl
@[simp] theorem Vector3.smul_y (a : Vector3) (c : ℚ) : (a * c).y = a.y * c := rfl
@[simp] theorem Vector3.smul_z (a : Vector3) (c : ℚ) : (a * c).z = a.z * c := rfl

theorem Vector3.dot_def (a b : Vector3) :
    a.dot b = a.x * b.x + a.y * b.y + a.z * b.z := rfl

theorem Vector3.lengthSq_def (a : Vector3) :
    a.lengthSq = a.x ^ 2 + a.y ^ 2 + a.z ^ 2 := rfl

/-- Every enemy kind has a strictly positive size radius. -/
theorem Enemy.size_pos (e : Enemy) : 0 < e.size := by
  cases h : e.enemy_type <;> simp [Enemy.size, h, EType.size]

end VectorLemmas

section FramePreservation

theorem setW_state (g : Game) (k : WKind) (w : WState) :
    (g.setW k w).state = g.state := rfl

theorem setW_enemies (g : Game) (k : WKind) (w : WState) :
    (g.setW k w).enemies = g.enemies := rfl

theorem setW_weapons_self (g : Game) (k : WKind) (w : WState) :
    (g.setW k w).weapons k = w := by
  simp [Game.setW]

theorem setW_weapons_ne (g : Game) (k j : WKind) (w : WState) (h : k ≠ j) :
    (g.setW j w).weapons k = g.weapons k := by
  simp [Game.setW, h]

theorem finish_reload_current (g : Game) :
    (g.finish_reload).current_weapon = g.current_weapon := rfl

theorem setW_current (g : Game) (j : WKind) (w : WState) :
    (g.setW j w).current_weapon = g.current_weapon := rfl

theorem finish_reload_weapons_ne (g : Game) (k : WKind)
    (h : k ≠ g.current_weapon) :
    (g.finish_reload).weapons k = g.weapons k := by
  unfold Game.finish_reload
  exact setW_weapons_ne _ _ _ _ h

theorem finish_reload_cooldown (g : Game) (k : WKind) :
    ((g.finish_reload).weapons k).cooldown = (g.weapons k).cooldown := by
  unfold Game.finish_reload Game.setW
  dsimp only
  split
  · next h => rw [h]
  · rfl

theorem reload_current (g : Game) :
    (g.reload).current_weapon = g.current_weapon := by
  unfold Game.reload
  dsimp only
  split <;> rfl

theorem reload_weapons_ne (g : Game) (k : WKind) (h : k ≠ g.current_weapon) :
    (g.reload).weapons k = g.weapons k := by
  unfold Game.reload
  dsimp only
  split
  · rfl
  · exact setW_weapons_ne _ _ _ _ h

theorem reload_cooldown (g : Game) (k : WKind) :
    ((g.reload).weapons k).cooldown = (g.weapons k).cooldown := by
  unfold Game.reload Game.setW
  dsimp only
  split
  · rfl
  · dsimp only
    split
    · next h => rw [h]
    · rfl

theorem reload_ammo_reserve (g : Game) (k : WKind) :
    ((g.reload).weapons k).ammo = (g.weapons k).ammo ∧
      ((g.reload).weapons k).reserve = (g.weapons k).reserve := by
  unfold Game.reload Game.setW
  dsimp only
  split
  · exact ⟨rfl, rfl⟩
  · dsimp only
    split
    · next h => rw [h]; exact ⟨rfl, rfl⟩
    · exact ⟨rfl, rfl⟩

theorem tickWeapon_state (g : Game) (dt : ℚ) (j : WKind) :
    (g.tickWeapon dt j).state = g.state := by
  unfold Game.tickWeapon Game.finish_reload Game.setW
  dsimp only
  repeat' split
  all_goals rfl

theorem tickWeapon_enemies (g : Game) (dt : ℚ) (j : WKind) :
    (g.tickWeapon dt j).enemies = g.enemies := by
  unfold Game.tickWeapon Game.finish_reload Game.setW
  dsimp only
  repeat' split
  all_goals rfl

theorem tickWeapon_current (g : Game) (dt : ℚ) (j : WKind) :
    (g.tickWeapon dt j).current_weapon = g.current_weapon := by
  unfold Game.tickWeapon Game.finish_reload Game.setW
  dsimp only
  repeat' split
  all_goals rfl

theorem tickWeapon_game_mode (g : Game) (dt : ℚ) (j : WKind) :
    (g.tickWeapon dt j).game_mode = g.game_mode := by
  unfold Game.tickWeapon Game.finish_reload Game.setW
  dsimp only
  repeat' split
  all_goals rfl

theorem tickWeapon_wave (g : Game) (dt : ℚ) (j : WKind) :
    (g.tickWeapon dt j).wave = g.wave := by
  unfold Game.tickWeapon Game.finish_reload Game.setW
  dsimp only
  repeat' split
  all_goals rfl

theorem tickWeapon_epw (g : Game) (dt : ℚ) (j : WKind) :
    (g.tickWeapon dt j).enemies_per_wave = g.enemies_per_wave := by
  unfold Game.tickWeapon Game.finish_reload Game.setW
  dsimp only
  repeat' split
  all_goals rfl

theorem tickWeapon_cameraPos (g : Game) (dt : ℚ) (j : WKind) :
    (g.tickWeapon dt j).cameraPos = g.cameraPos := by
  unfold Game.tickWeapon Game.finish_reload Game.setW
  dsimp only
  repeat' split
  all_goals rfl

theorem tickWeapon_cooldown (g : Game) (dt : ℚ) (j k : WKind) :
    ((g.tickWeapon dt j).weapons k).cooldown =
      if k = j ∧ 0 < (g.weapons k).cooldown then (g.weapons k).cooldown - dt
      else (g.weapons k).cooldown := by
  unfold Game.tickWeapon
  dsimp only
  by_cases hkj : k = j
  · subst hkj
    repeat' split
    all_goals simp_all [finish_reload_cooldown, setW_weapons_self]
  · repeat' split
    all_goals simp_all [finish_reload_cooldown, setW_weapons_ne, setW_current]

theorem tickWeapon_reloading_ne (g : Game) (dt : ℚ) (j k : WKind)
    (hcur : k ≠ g.current_weapon) :
    ((g.tickWeapon dt j).weapons k).reloading =
      if k = j ∧ 0 < (g.weapons k).reloading then (g.weapons k).reloading - dt
      else (g.weapons k).reloading := by
  unfold Game.tickWeapon
  dsimp only
  by_cases hkj : k = j
  · subst hkj
    repeat' split
    all_goals simp_all [finish_reload_weapons_ne, setW_current, setW_weapons_self]
  · repeat' split
    all_goals simp_all [finish_reload_weapons_ne, setW_current, setW_weapons_ne]

theorem tickWeapon_ammo_reserve_ne (g : Game) (dt : ℚ) (j k : WKind)
    (hcur : k ≠ g.current_weapon) (hkj : k ≠ j) :
    (g.tickWeapon dt j).weapons k = g.weapons k := by
  unfold Game.tickWeapon
  dsimp only
  repeat' split
  all_goals simp_all [finish_reload_weapons_ne, setW_current, setW_weapons_ne]

theorem reload_state (g : Game) : (g.reload).state = g.state := by
  unfold Game.reload
  dsimp only
  split <;> rfl

theorem reload_enemies (g : Game) : (g.reload).enemies = g.enemies := by
  unfold Game.reload
  dsimp only
  split <;> rfl

theorem reload_game_mode (g : Game) : (g.reload).game_mode = g.game_mode := by
  unfold Game.reload
  dsimp only
  split <;> rfl

theorem reload_wave (g : Game) : (g.reload).wave = g.wave := by
  unfold Game.reload
  dsimp only
  split <;> rfl

theorem reload_epw (g : Game) : (g.reload).enemies_per_wave = g.enemies_per_wave := by
  unfold Game.reload
  dsimp only
  split <;> rfl

theorem tickWeapons_enemies (g : Game) (dt : ℚ) :
    (g.tickWeapons dt).enemies = g.enemies := by
  unfold Game.tickWeapons
  dsimp only
  split <;> simp [reload_enemies, tickWeapon_enemies]

theorem tickWeapons_state (g : Game) (dt : ℚ) :
    (g.tickWeapons dt).state = g.state := by
  unfold Game.tickWeapons
  dsimp only
  split <;> simp [reload_state, tickWeapon_state]

theorem tickWeapons_current (g : Game) (dt : ℚ) :
    (g.tickWeapons dt).current_weapon = g.current_weapon := by
  unfold Game.tickWeapons
  dsimp only
  split <;> simp [reload_current, tickWeapon_current]

theorem tickWeapons_game_mode (g : Game) (dt : ℚ) :
    (g.tickWeapons dt).game_mode = g.game_mode := by
  unfold Game.tickWeapons
  dsimp only
  split <;> simp [reload_game_mode, tickWeapon_game_mode]

theorem tickWeapons_wave (g : Game) (dt : ℚ) :
    (g.tickWeapons dt).wave = g.wave := by
  unfold Game.tickWeapons
  dsimp only
  split <;> simp [reload_wave, tickWeapon_wave]

theorem tickWeapons_epw (g : Game) (dt : ℚ) :
    (g.tickWeapons dt).enemies_per_wave = g.enemies_per_wave := by
  unfold Game.tickWeapons
  dsimp only
  split <;> simp [reload_epw, tickWeapon_epw]

theorem tickWeapons_cooldown (g : Game) (dt : ℚ) (k : WKind) :
    ((g.tickWeapons dt).weapons k).cooldown =
      if 0 < (g.weapons k).cooldown then (g.weapons k).cooldown - dt
      else (g.weapons k).cooldown := by
  unfold Game.tickWeapons
  dsimp only
  split
  all_goals cases k <;> simp [reload_cooldown, tickWeapon_cooldown]

theorem tickWeapons_reloading_ne (g : Game) (dt : ℚ) (k : WKind)
    (hcur : k ≠ g.current_weapon) :
    ((g.tickWeapons dt).weapons k).reloading =
      if 0 < (g.weapons k).reloading then (g.weapons k).reloading - dt
      else (g.weapons k).reloading := by
  unfold Game.tickWeapons
  dsimp only
  split
  all_goals
    cases k <;>
      simp_all [reload_weapons_ne, tickWeapon_reloading_ne, tickWeapon_current]

theorem tickRest_weapons (g : Game) (dt : ℚ) (env : TickEnv) :
    (g.tickRest dt env).weapons = g.weapons := by
  unfold Game.tickRest Game.spawn_wave Game.spawn_targets Game.add_kill_feed
  dsimp only
  repeat' split
  all_goals rfl

theorem screen_shake_weapons (g : Game) (a : ℚ) :
    (g.screen_shake a).weapons = g.weapons := rfl

theorem shootPellet_weapons (g : Game) (pe : PelletEnv) (d : ℚ) :
    (g.shootPellet pe d).weapons = g.weapons := by
  unfold Game.shootPellet Game.add_kill_feed
  dsimp only
  repeat' split
  all_goals rfl

theorem foldl_pellets_weapons (env : ShootEnv) (d : ℚ) (l : List ℕ) :
    ∀ g : Game,
      (l.foldl (fun gg p => gg.shootPellet (env.pellet p) d) g).weapons = g.weapons := by
  induction l with
  | nil => intro g; rfl
  | cons p rest ih =>
    intro g
    rw [List.foldl_cons, ih, shootPellet_weapons]

/-- The weapon phase of Game.update changes a positive cooldown by exactly
-dt and leaves a non-positive cooldown alone, for every weapon. -/
theorem update_cooldown (g : Game) (dt : ℚ) (env : TickEnv) (k : WKind) :
    ((g.update dt env).weapons k).cooldown =
      if g.state = .PLAYING ∧ 0 < (g.weapons k).cooldown
      then (g.weapons k).cooldown - dt else (g.weapons k).cooldown := by
  unfold Game.update
  split
  · next h =>
    rw [tickRest_weapons, tickWeapons_cooldown]
    simp [h]
  · next h => simp [h]

section WeaponInvariant

theorem winv_of_weapons_eq {g g' : Game} (he : g'.weapons = g.weapons)
    (h : WeaponInv g) : WeaponInv g' := by
  intro k
  rw [he]
  exact h k

theorem winv_setW (g : Game) (k : WKind) (w : WState) (h : WeaponInv g)
    (hw : 0 ≤ w.ammo ∧ w.ammo ≤ (WEAPONS k).max_ammo ∧ 0 ≤ w.reserve) :
    WeaponInv (g.setW k w) := by
  intro k2
  unfold Game.setW
  dsimp only
  split
  · next heq => rw [heq]; exact hw
  · exact h k2

theorem winv_finish_reload (g : Game) (h : WeaponInv g) :
    WeaponInv g.finish_reload := by
  unfold Game.finish_reload
  dsimp only
  obtain ⟨h1, h2, h3⟩ := h g.current_weapon
  apply winv_setW _ _ _ h
  refine ⟨?_, ?_, ?_⟩ <;> dsimp only <;> omega

theorem winv_reload (g : Game) (h : WeaponInv g) : WeaponInv g.reload := by
  unfold Game.reload
  dsimp only
  split
  · exact h
  · exact winv_setW _ _ _ h (h g.current_weapon)

theorem winv_tickWeapon (g : Game) (dt : ℚ) (j : WKind) (h : WeaponInv g) :
    WeaponInv (g.tickWeapon dt j) := by
  obtain ⟨h1, h2, h3⟩ := h j
  unfold Game.tickWeapon
  dsimp only
  repeat' split
  all_goals
    first
      | exact winv_finish_reload _ (winv_setW _ _ _ h ⟨h1, h2, h3⟩)
      | exact winv_setW _ _ _ h ⟨h1, h2, h3⟩

theorem winv_tickWeapons (g : Game) (dt : ℚ) (h : WeaponInv g) :
    WeaponInv (g.tickWeapons dt) := by
  unfold Game.tickWeapons
  dsimp only
  split
  · exact winv_reload _ (winv_tickWeapon _ _ _ (winv_tickWeapon _ _ _ (winv_tickWeapon _ _ _ h)))
  · exact winv_tickWeapon _ _ _ (winv_tickWeapon _ _ _ (winv_tickWeapon _ _ _ h))

theorem winv_update (g : Game) (dt : ℚ) (env : TickEnv) (h : WeaponInv g) :
    WeaponInv (g.update dt env) := by
  unfold Game.update
  split
  · exact winv_of_weapons_eq (tickRest_weapons _ _ _) (winv_tickWeapons _ _ h)
  · exact h

theorem winv_shoot (g : Game) (env : ShootEnv) (h : WeaponInv g) :
    WeaponInv (g.shoot env) := by
  unfold Game.shoot
  dsimp only
  split
  · exact h
  · next hguard =>
    apply winv_of_weapons_eq (foldl_pellets_weapons _ _ _ _)
    apply winv_of_weapons_eq (screen_shake_weapons _ _)
    obtain ⟨h1, h2, h3⟩ := h g.current_weapon
    have hpos : 0 < (g.weapons g.current_weapon).ammo := by
      by_contra hc
      exact hguard (Or.inr (Or.inr (by omega)))
    apply winv_setW _ _ _ h
    refine ⟨?_, ?_, ?_⟩ <;> dsimp only <;> omega

theorem winv_init_weapons : ∀ k : WKind,
    0 ≤ (initWeapons k).ammo ∧ (initWeapons k).ammo ≤ (WEAPONS k).max_ammo ∧
      0 ≤ (initWeapons k).reserve := by
  intro k
  cases k <;> exact ⟨by decide, by decide, by decide⟩

theorem start_game_weapons (g : Game) (mode : Mode) (env : SpawnEnv) :
    (g.start_game mode env).weapons = initWeapons := by
  cases mode <;> rfl

theorem winv_start_game (g : Game) (mode : Mode) (env : SpawnEnv) :
    WeaponInv (g.start_game mode env) := by
  intro k
  rw [start_game_weapons]
  exact winv_init_weapons k

theorem winv_step (g : Game) (a : Action) (h : WeaponInv g) :
    WeaponInv (g.step a) := by
  cases a with
  | tick dt env => exact winv_update _ _ _ h
  | fire env =>
    simp only [Game.step]
    split
    · exact winv_shoot _ _ h
    · exact h
  | reloadKey =>
    simp only [Game.step]
    split
    · exact winv_reload _ h
    · exact h
  | switch k =>
    simp only [Game.step]
    split
    · exact winv_of_weapons_eq rfl h
    · exact h
  | start mode env =>
    simp only [Game.step]
    split
    · exact winv_start_game _ _ _
    · exact h
  | pause =>
    simp only [Game.step]
    split
    · exact winv_of_weapons_eq rfl h
    · exact h
  | resume =>
    simp only [Game.step]
    split
    · exact winv_of_weapons_eq rfl h
    · exact h
  | toMenu =>
    simp only [Game.step]
    split
    · exact winv_of_weapons_eq rfl h
    · exact h

theorem winv_run (acts : List Action) :
    ∀ g : Game, WeaponInv g → WeaponInv (g.run acts) := by
  induction acts with
  | nil => intro g h; exact h
  | cons a rest ih =>
    intro g h
    exact ih _ (winv_step _ _ h)

theorem winv_init : WeaponInv Game.init := by
  intro k
  exact winv_init_weapons k

end WeaponInvariant

end FramePreservation

section EnemyWave

/-- Enemy.update never changes the alive flag (dying happens only through
Enemy.hit). -/
theorem Enemy.update_alive (dt : ℚ) (p w m : Vector3) (e : Enemy) :
    (Enemy.update dt p w m e).alive = e.alive := by
  unfold Enemy.update
  dsimp only
  repeat' split
  all_goals rfl

theorem updEnemies_dead (dt : ℚ) (p : Vector3) (env : TickEnv) :
    ∀ (l : List Enemy) (n : ℕ), (∀ e ∈ l, e.alive = false) →
      ∀ e2 ∈ updEnemies dt p env n l, e2.alive = false := by
  intro l
  induction l with
  | nil =>
    intro n h e2 he2
    simp [updEnemies] at he2
  | cons e rest ih =>
    intro n h e2 he2
    rw [updEnemies] at he2
    rcases List.mem_cons.mp he2 with h1 | h2
    · rw [h1, Enemy.update_alive]
      exact h e (List.mem_cons_self _ _)
    · exact ih (n + 1) (fun x hx => h x (List.mem_cons_of_mem _ hx)) e2 h2

theorem spawn_wave_wave (g : Game) (env : SpawnEnv) :
    (g.spawn_wave env).wave = g.wave := rfl

theorem spawn_wave_epw (g : Game) (env : SpawnEnv) :
    (g.spawn_wave env).enemies_per_wave = g.enemies_per_wave + 2 := rfl

theorem spawn_wave_length (g : Game) (env : SpawnEnv) :
    (g.spawn_wave env).enemies.length = g.enemies.length + g.enemies_per_wave := by
  unfold Game.spawn_wave Game.add_kill_feed
  dsimp only
  simp

/-- The entity phase of the tick, in survival mode with every enemy dead:
the wave number increments and a fresh wave of the current batch size
spawns. -/
theorem tickRest_survival_spawn (g : Game) (dt : ℚ) (env : TickEnv)
    (hgm : g.game_mode = some Mode.survival)
    (hdead : ∀ e ∈ g.enemies, e.alive = false) :
    (g.tickRest dt env).wave = g.wave + 1 ∧
    (g.tickRest dt env).enemies.length = g.enemies_per_wave ∧
    (g.tickRest dt env).enemies_per_wave = g.enemies_per_wave + 2 := by
  have hfil : (updEnemies dt g.cameraPos env 0 g.enemies).filter (fun e => e.alive) = [] := by
    rw [List.filter_eq_nil_iff]
    intro a ha
    simp [updEnemies_dead dt g.cameraPos env g.enemies 0 hdead a ha]
  unfold Game.tickRest
  dsimp only
  rw [hfil]
  split
  all_goals
    simp [hgm, Game.spawn_wave, Game.add_kill_feed]

/-- Game.update in survival mode on a tick where every enemy is already
dead: wave increments, enemies_per_wave enemies spawn, and the batch size
grows by 2. -/
theorem update_survival_spawn (g : Game) (dt : ℚ) (env : TickEnv)
    (hst : g.state = GameState.PLAYING)
    (hgm : g.game_mode = some Mode.survival)
    (hdead : ∀ e ∈ g.enemies, e.alive = false) :
    (g.update dt env).wave = g.wave + 1 ∧
    (g.update dt env).enemies.length = g.enemies_per_wave ∧
    (g.update dt env).enemies_per_wave = g.enemies_per_wave + 2 := by
  unfold Game.update
  rw [if_pos hst]
  have h1 : (g.tickWeapons dt).game_mode = some Mode.survival := by
    rw [tickWeapons_game_mode]; exact hgm
  have h2 : ∀ e ∈ (g.tickWeapons dt).enemies, e.alive = false := by
    rw [tickWeapons_enemies]; exact hdead
  have h3 := tickRest_survival_spawn (g.tickWeapons dt) dt env h1 h2
  refine ⟨?_, ?_, ?_⟩
  · rw [h3.1, tickWeapons_wave]
  · rw [h3.2.1, tickWeapons_epw]
  · rw [h3.2.2, tickWeapons_epw]

end EnemyWave

section RaycastLemmas

/-- Soundness of the raycast fold: a returned (index, projection) pair is
either the incoming best pair or belongs to a list element that passed
all three filters. -/
theorem raycastAux_sound (o d : Vector3) :
    ∀ (l : List Enemy) (i : ℕ) (best : Option (ℕ × ℚ)) (j : ℕ) (p : ℚ),
      raycastAux o d l i best = some (j, p) →
      best = some (j, p) ∨
        ∃ (k : ℕ) (e2 : Enemy), l[k]? = some e2 ∧ hitCand o d e2 ∧
          j = i + k ∧ p = rayProj o d e2 := by
  intro l
  induction l with
  | nil => intro i best j p h; exact Or.inl h
  | cons e rest ih =>
    intro i best j p h
    rw [raycastAux] at h
    split at h
    · next halive =>
      dsimp only at h
      split at h
      · rcases ih (i + 1) best j p h with hb | ⟨k, e2, hk, hc, hj, hp⟩
        · exact Or.inl hb
        · exact Or.inr ⟨k + 1, e2, by simpa using hk, hc, by omega, hp⟩
      · next hlt =>
        split at h
        · next hacc =>
          rcases ih (i + 1) (some (i, (e.position - o).dot d)) j p h with hb |
              ⟨k, e2, hk, hc, hj, hp⟩
          · cases hb
            exact Or.inr ⟨0, e, by simp, ⟨halive, not_lt.mp hlt, hacc.1⟩, by omega, rfl⟩
          · exact Or.inr ⟨k + 1, e2, by simpa using hk, hc, by omega, hp⟩
        · rcases ih (i + 1) best j p h with hb | ⟨k, e2, hk, hc, hj, hp⟩
          · exact Or.inl hb
          · exact Or.inr ⟨k + 1, e2, by simpa using hk, hc, by omega, hp⟩
    · next halive =>
      rcases ih (i + 1) best j p h with hb | ⟨k, e2, hk, hc, hj, hp⟩
      · exact Or.inl hb
      · exact Or.inr ⟨k + 1, e2, by simpa using hk, hc, by omega, hp⟩

/-- Minimality of the raycast fold: the returned projection is no larger
than the incoming best pair's and than that of every filtered-in element
of the list (the `proj < closest_dist` tie-break). -/
theorem raycastAux_min (o d : Vector3) :
    ∀ (l : List Enemy) (i : ℕ) (best : Option (ℕ × ℚ)) (j : ℕ) (p : ℚ),
      raycastAux o d l i best = some (j, p) →
      (∀ q : ℕ × ℚ, best = some q → p ≤ q.2) ∧
      (∀ (k : ℕ) (e2 : Enemy), l[k]? = some e2 → hitCand o d e2 →
        p ≤ rayProj o d e2) := by
  intro l
  induction l with
  | nil =>
    intro i best j p h
    refine ⟨fun q hq => ?_, fun k e2 hk => ?_⟩
    · rw [show best = some (j, p) from h] at hq
      cases hq
      exact le_refl _
    · simp at hk
  | cons e rest ih =>
    intro i best j p h
    rw [raycastAux] at h
    split at h
    · next halive =>
      dsimp only at h
      split at h
      · next hlt =>
        obtain ⟨h1, h2⟩ := ih (i + 1) best j p h
        refine ⟨h1, fun k e2 hk hc => ?_⟩
        match k with
        | 0 =>
          rw [List.getElem?_cons_zero] at hk
          cases hk
          exact absurd hc.2.1 (not_le.mpr hlt)
        | k + 1 =>
          rw [List.getElem?_cons_succ] at hk
          exact h2 k e2 hk hc
      · next hlt =>
        split at h
        · next hacc =>
          obtain ⟨h1, h2⟩ := ih (i + 1) (some (i, (e.position - o).dot d)) j p h
          have hple : p ≤ (e.position - o).dot d := h1 _ rfl
          refine ⟨fun q hq => ?_, fun k e2 hk hc => ?_⟩
          · have hb := hacc.2
            rw [hq] at hb
            unfold projLt at hb
            have : (e.position - o).dot d < q.2 := of_decide_eq_true hb
            exact le_of_lt (lt_of_le_of_lt hple this)
          · match k with
            | 0 =>
              rw [List.getElem?_cons_zero] at hk
              cases hk
              exact hple
            | k + 1 =>
              rw [List.getElem?_cons_succ] at hk
              exact h2 k e2 hk hc
        · next hacc =>
          obtain ⟨h1, h2⟩ := ih (i + 1) best j p h
          refine ⟨h1, fun k e2 hk hc => ?_⟩
          match k with
          | 0 =>
            rw [List.getElem?_cons_zero] at hk
            cases hk
            have hnb : ¬(projLt ((e.position - o).dot d) best = true) := by
              intro hb
              exact hacc ⟨hc.2.2, hb⟩
            cases best with
            | none => exact absurd rfl hnb
            | some q' =>
              unfold projLt at hnb
              have hle : q'.2 ≤ (e.position - o).dot d := by
                by_contra hcon
                exact hnb (decide_eq_true (not_le.mp hcon))
              exact le_trans (h1 q' rfl) hle
          | k + 1 =>
            rw [List.getElem?_cons_succ] at hk
            exact h2 k e2 hk hc
    · next halive =>
      obtain ⟨h1, h2⟩ := ih (i + 1) best j p h
      refine ⟨h1, fun k e2 hk hc => ?_⟩
      match k with
      | 0 =>
        rw [List.getElem?_cons_zero] at hk
        cases hk
        exact absurd hc.1 halive
      | k + 1 =>
        rw [List.getElem?_cons_succ] at hk
        exact h2 k e2 hk hc

/-- Completeness of the raycast fold: if some element passes all three
filters (or a best pair is already present), the fold returns a pair. -/
theorem raycastAux_isSome (o d : Vector3) :
    ∀ (l : List Enemy) (i : ℕ) (best : Option (ℕ × ℚ)),
      ((∃ (k : ℕ) (e2 : Enemy), l[k]? = some e2 ∧ hitCand o d e2) ∨
        best.isSome = true) →
      (raycastAux o d l i best).isSome = true := by
  intro l
  induction l with
  | nil =>
    intro i best h
    rcases h with ⟨k, e2, hk, _⟩ | hb
    · simp at hk
    · exact hb
  | cons e rest ih =>
    intro i best h
    rw [raycastAux]
    split
    · next halive =>
      dsimp only
      split
      · next hlt =>
        apply ih
        rcases h with ⟨k, e2, hk, hc⟩ | hb
        · match k with
          | 0 =>
            rw [List.getElem?_cons_zero] at hk
            cases hk
            exact absurd hc.2.1 (not_le.mpr hlt)
          | k + 1 =>
            rw [List.getElem?_cons_succ] at hk
            exact Or.inl ⟨k, e2, hk, hc⟩
        · exact Or.inr hb
      · split
        · exact ih (i + 1) _ (Or.inr rfl)
        · next hacc =>
          apply ih
          rcases h with ⟨k, e2, hk, hc⟩ | hb
          · match k with
            | 0 =>
              rw [List.getElem?_cons_zero] at hk
              cases hk
              have hnb : ¬(projLt ((e.position - o).dot d) best = true) := by
                intro hb2
                exact hacc ⟨hc.2.2, hb2⟩
              cases best with
              | none => exact absurd rfl hnb
              | some q' => exact Or.inr rfl
            | k + 1 =>
              rw [List.getElem?_cons_succ] at hk
              exact Or.inl ⟨k, e2, hk, hc⟩
          · exact Or.inr hb
    · next halive =>
      apply ih
      rcases h with ⟨k, e2, hk, hc⟩ | hb
      · match k with
        | 0 =>
          rw [List.getElem?_cons_zero] at hk
          cases hk
          exact absurd hc.1 halive
        | k + 1 =>
          rw [List.getElem?_cons_succ] at hk
          exact Or.inl ⟨k, e2, hk, hc⟩
      · exact Or.inr hb

/-- Game.raycast soundness and minimality: a returned index points at an
element that passed the alive/projection/distance filters and whose
projection is minimal among all filtered-in elements. -/
theorem raycast_sound (origin dir : Vector3) (l : List Enemy) (i : ℕ)
    (h : raycast origin dir l = some i) :
    ∃ e2, l[i]? = some e2 ∧ hitCand origin dir e2 ∧
      ∀ (k : ℕ) (e3 : Enemy), l[k]? = some e3 → hitCand origin dir e3 →
        rayProj origin dir e2 ≤ rayProj origin dir e3 := by
  unfold raycast at h
  obtain ⟨⟨j, p⟩, haux, hj⟩ := Option.map_eq_some'.mp h
  dsimp only at hj
  subst hj
  rcases raycastAux_sound origin dir l 0 none j p haux with hb | ⟨k, e2, hk, hc, hjk, hp⟩
  · cases hb
  · have hmin := (raycastAux_min origin dir l 0 none j p haux).2
    have hjk2 : j = k := by omega
    subst hjk2
    refine ⟨e2, hk, hc, fun k3 e3 hk3 hc3 => ?_⟩
    rw [← hp]
    exact hmin k3 e3 hk3 hc3

/-- Game.raycast completeness: a filtered-in element forces a hit to be
returned. -/
theorem raycast_isSome (origin dir : Vector3) (l : List Enemy)
    (h : ∃ (k : ℕ) (e2 : Enemy), l[k]? = some e2 ∧ hitCand origin dir e2) :
    (raycast origin dir l).isSome = true := by
  unfold raycast
  have := raycastAux_isSome origin dir l 0 none (Or.inl h)
  match haux : raycastAux origin dir l 0 none with
  | none => rw [haux] at this; simp at this
  | some v => simp [haux]

/-- The squared distance of a vector from itself is zero. -/
theorem lengthSq_sub_self (v : Vector3) : (v - v).lengthSq = 0 := by
  simp [Vector3.lengthSq_def]

end RaycastLemmas

section Claims

/-- C1: the claim says that when any weapon's reload timer crosses ≤ 0
during a tick, that same weapon is refilled by min(max_ammo - ammo,
reserve), its reserve drops by that amount and its reload timer goes to
0, including for a weapon that is not currently selected.  The code calls
finish_reload, which reads and writes self.weapons[self.current_weapon]:
at the failing input below the rifle's reload crosses zero while the
pistol is selected, and the run ends with the rifle unrefilled (ammo 29,
reserve 90, reloading stuck at -1/10) while the pistol is spuriously
refilled (ammo 11 → 12, reserve 36 → 35). -/
theorem C1_cross_weapon_reload_bug :
    ((Game.init.run actsReloadSwitch).weapons WKind.rifle).ammo = 29 ∧
    ((Game.init.run actsReloadSwitch).weapons WKind.rifle).reserve = 90 ∧
    ((Game.init.run actsReloadSwitch).weapons WKind.rifle).reloading = -(1/10) ∧
    ((Game.init.run actsReloadSwitch).weapons WKind.pistol).ammo = 12 ∧
    ((Game.init.run actsReloadSwitch).weapons WKind.pistol).reserve = 35 := by
  with_unfolding_all decide

/-- C2 counterexample: a 0.5 s tick on a pistol cooldown of 0.3 s leaves
the cooldown at -1/5 < 0 — cooldowns are not floored at 0 at the
transition back to Idle, refuting "cooldown-remaining and
reload-remaining are never negative". -/
theorem C2_counterexample :
    actsOvershoot.all Action.dtOk = true ∧
      ((Game.init.run actsOvershoot).weapons WKind.pistol).cooldown < 0 := by
  with_unfolding_all decide

/-- C2 amended: timers are not floored.  While the session is PLAYING, a
tick changes each weapon's positive cooldown by exactly -dt (overshooting
below 0 when dt is larger, after which later ticks leave it unchanged),
and likewise the positive reload timer of any weapon other than the
selected one; non-positive timers are treated as expired by the guards
rather than being clamped. -/
theorem C2_timers_not_floored :
    ∀ (g : Game) (dt : ℚ) (env : TickEnv) (k : WKind),
      (((g.update dt env).weapons k).cooldown =
        if g.state = GameState.PLAYING ∧ 0 < (g.weapons k).cooldown
        then (g.weapons k).cooldown - dt else (g.weapons k).cooldown) ∧
      (k ≠ g.current_weapon →
        ((g.update dt env).weapons k).reloading =
          if g.state = GameState.PLAYING ∧ 0 < (g.weapons k).reloading
          then (g.weapons k).reloading - dt else (g.weapons k).reloading) := by
  intro g dt env k
  refine ⟨update_cooldown g dt env k, fun hcur => ?_⟩
  unfold Game.update
  split
  · next h =>
    rw [tickRest_weapons, tickWeapons_reloading_ne _ _ _ hcur]
    simp [h]
  · next h => simp [h]

/-- C2 witness: the rifle, not selected and with 2 s of reload left,
stands at 3/2 s after a 0.5 s tick of the playing session gRel. -/
theorem C2_witness :
    ((gRel.update (1/2) tenv0).weapons WKind.rifle).reloading = 3/2 := by
  have h := (C2_timers_not_floored gRel (1/2) tenv0 WKind.rifle).2
    (by with_unfolding_all decide)
  rw [h]
  with_unfolding_all decide

/-- C3: along every intent sequence with nonnegative tick deltas, every
weapon's magazine stays within 0..max_ammo for its kind and its reserve
never goes negative. -/
theorem C3_ammo_bounds :
    ∀ acts : List Action, (∀ a ∈ acts, a.dtOk = true) →
      WeaponInv (Game.init.run acts) := by
  intro acts _
  exact winv_run acts Game.init winv_init

/-- C3 witness: the pistol's bounds at the end of the actsOvershoot run. -/
theorem C3_witness :
    0 ≤ ((Game.init.run actsOvershoot).weapons WKind.pistol).ammo ∧
      ((Game.init.run actsOvershoot).weapons WKind.pistol).ammo ≤
        (WEAPONS WKind.pistol).max_ammo ∧
      0 ≤ ((Game.init.run actsOvershoot).weapons WKind.pistol).reserve :=
  C3_ammo_bounds actsOvershoot (by with_unfolding_all decide) WKind.pistol

/-- C4: a fire intent while the selected weapon has cooldown > 0, or
reloading > 0, or ammo ≤ 0 returns the session state unchanged — the
whole Game record, hence ammo, reserve, cooldown, reloading, score,
kills, enemies, particles, kill feed and screen shake. -/
theorem C4_rejected_fire_noop :
    ∀ (g : Game) (env : ShootEnv),
      (0 < (g.weapons g.current_weapon).cooldown ∨
       0 < (g.weapons g.current_weapon).reloading ∨
       (g.weapons g.current_weapon).ammo ≤ 0) →
      g.shoot env = g := by
  intro g env h
  unfold Game.shoot
  dsimp only
  rw [if_pos h]

/-- C4 witness: firing while the pistol is on cooldown changes nothing. -/
theorem C4_witness : gOnCooldown.shoot senv0 = gOnCooldown :=
  C4_rejected_fire_noop gOnCooldown senv0 (Or.inl (by with_unfolding_all decide))

/-- C7: a fresh survival session spawns exactly 5 enemies as wave 1 (with
the batch size advanced to 7), and on any playing survival tick where
every enemy is dead the wave increments and exactly enemies_per_wave
enemies spawn, the batch growing by 2 — so wave 2 has 7, wave 3 has 9,
and so on. -/
theorem C7_survival_waves :
    (∀ env : SpawnEnv,
      (Game.init.step (.start .survival env)).enemies.length = 5 ∧
      (Game.init.step (.start .survival env)).wave = 1 ∧
      (Game.init.step (.start .survival env)).enemies_per_wave = 7) ∧
    (∀ (g : Game) (dt : ℚ) (env : TickEnv),
      g.state = GameState.PLAYING → g.game_mode = some Mode.survival →
      (∀ e ∈ g.enemies, e.alive = false) →
      (g.update dt env).wave = g.wave + 1 ∧
      (g.update dt env).enemies.length = g.enemies_per_wave ∧
      (g.update dt env).enemies_per_wave = g.enemies_per_wave + 2) := by
  constructor
  · intro env
    refine ⟨?_, ?_, ?_⟩ <;>
      simp [Game.step, Game.init, Game.start_game, Game.spawn_wave,
        Game.add_kill_feed]
  · intro g dt env hst hgm hdead
    exact update_survival_spawn g dt env hst hgm hdead

/-- C7 witness: eliminating all five wave-1 enemies makes the next tick
produce wave 2 with 7 enemies and batch size 9. -/
theorem C7_witness :
    (gWave1Dead.update 1 tenv0).wave = gWave1Dead.wave + 1 ∧
    (gWave1Dead.update 1 tenv0).enemies.length = gWave1Dead.enemies_per_wave ∧
    (gWave1Dead.update 1 tenv0).enemies_per_wave =
      gWave1Dead.enemies_per_wave + 2 :=
  C7_survival_waves.2 gWave1Dead 1 tenv0 (by with_unfolding_all decide)
    (by with_unfolding_all decide) (by with_unfolding_all decide)

/-- C9: start_game resets score, kills, player health, particles, weapon
states, camera and selection, but never touches enemies_per_wave (only
the subsequent survival spawn advances it by 2); the first wave of a new
survival session therefore has the prior enemies_per_wave enemies — 5 +
2k after k earlier spawn_wave calls, since the counter starts at 5 and
each spawn adds 2. -/
theorem C9_start_game_frame :
    Game.init.enemies_per_wave = 5 ∧
    (∀ (g : Game) (env : SpawnEnv),
      (g.spawn_wave env).enemies_per_wave = g.enemies_per_wave + 2) ∧
    (∀ (g : Game) (mode : Mode) (env : SpawnEnv),
      (g.start_game mode env).score = 0 ∧
      (g.start_game mode env).kills = 0 ∧
      (g.start_game mode env).player_health = 100 ∧
      (g.start_game mode env).particles = [] ∧
      (g.start_game mode env).weapons = initWeapons ∧
      (g.start_game mode env).cameraPos = ⟨0, 2, 0⟩ ∧
      (g.start_game mode env).current_weapon = WKind.pistol) ∧
    (∀ (g : Game) (env : SpawnEnv),
      (g.start_game .survival env).enemies.length = g.enemies_per_wave ∧
      (g.start_game .survival env).wave = 1 ∧
      (g.start_game .survival env).enemies_per_wave = g.enemies_per_wave + 2) ∧
    (∀ (g : Game) (env : SpawnEnv),
      (g.start_game .target env).enemies_per_wave = g.enemies_per_wave) := by
  refine ⟨rfl, fun g env => rfl, ?_, ?_, fun g env => rfl⟩
  · intro g mode env
    cases mode <;> exact ⟨rfl, rfl, rfl, rfl, rfl, rfl, rfl⟩
  · intro g env
    refine ⟨?_, rfl, rfl⟩
    simp [Game.start_game, Game.spawn_wave, Game.add_kill_feed]

/-- C5: raycast geometry.  For a normalized direction, a single alive
enemy whose center lies exactly on the ray at parameter dd ≥ 0 is
returned (its size radius is positive for every kind); an enemy whose
squared perpendicular distance from the ray line exceeds its squared size
radius is never returned, in any list; an enemy with a negative
projection (behind the origin) is never returned. -/
theorem C5_raycast_geometry :
    (∀ (origin dir : Vector3) (dd : ℚ) (e : Enemy),
      dir.lengthSq = 1 → e.alive = true → e.position = origin + dir * dd →
      0 ≤ dd → raycast origin dir [e] = some 0) ∧
    (∀ (origin dir : Vector3) (l : List Enemy) (i : ℕ) (e : Enemy),
      dir.lengthSq = 1 → e.size ^ 2 < rayDistSq origin dir e →
      raycast origin dir l = some i → l[i]? ≠ some e) ∧
    (∀ (origin dir : Vector3) (l : List Enemy) (i : ℕ) (e : Enemy),
      rayProj origin dir e < 0 →
      raycast origin dir l = some i → l[i]? ≠ some e) := by
  refine ⟨?_, ?_, ?_⟩
  · intro origin dir dd e hdir halive hpos hd
    have hproj : (e.position - origin).dot dir = dd := by
      rw [hpos]
      simp only [Vector3.dot_def, Vector3.add_x, Vector3.add_y, Vector3.add_z,
        Vector3.sub_x, Vector3.sub_y, Vector3.sub_z, Vector3.smul_x,
        Vector3.smul_y, Vector3.smul_z]
      simp only [Vector3.lengthSq_def] at hdir
      ring_nf
      ring_nf at hdir
      linear_combination dd * hdir
    unfold raycast
    rw [raycastAux, if_pos halive]
    dsimp only
    rw [hproj, if_neg (not_lt.mpr hd)]
    have hdsq : ((origin + dir * dd) - e.position).lengthSq = 0 := by
      rw [hpos]
      exact lengthSq_sub_self _
    rw [hdsq]
    rw [if_pos ⟨pow_pos (Enemy.size_pos e) 2, rfl⟩]
    rfl
  · intro origin dir l i e hdir hfar hr hmem
    obtain ⟨e2, hk, hc, _⟩ := raycast_sound origin dir l i hr
    rw [hmem] at hk
    cases hk
    exact absurd hc.2.2 (not_lt.mpr (le_of_lt hfar))
  · intro origin dir l i e hneg hr hmem
    obtain ⟨e2, hk, hc, _⟩ := raycast_sound origin dir l i hr
    rw [hmem] at hk
    cases hk
    exact absurd hc.2.1 (not_le.mpr hneg)

/-- C5 witness: a fast enemy dead ahead at distance 5 is hit. -/
theorem C5_witness :
    raycast ⟨0, 2, 0⟩ ⟨0, 0, -1⟩ [Enemy.spawn ⟨0, 2, -5⟩ EType.fast] = some 0 :=
  C5_raycast_geometry.1 ⟨0, 2, 0⟩ ⟨0, 0, -1⟩ 5 (Enemy.spawn ⟨0, 2, -5⟩ EType.fast)
    (by with_unfolding_all decide) rfl (by with_unfolding_all decide)
    (by with_unfolding_all decide)

/-- C6: a returned raycast index points at an alive candidate (alive,
nonnegative projection, within its size radius) whose projection along
the ray is minimal among all candidates — dead enemies are never
returned; and whenever any candidate exists, raycast does return a hit. -/
theorem C6_raycast_nearest :
    (∀ (origin dir : Vector3) (l : List Enemy) (i : ℕ),
      raycast origin dir l = some i →
      ∃ e, l[i]? = some e ∧ e.alive = true ∧ hitCand origin dir e ∧
        ∀ (k : ℕ) (e2 : Enemy), l[k]? = some e2 → hitCand origin dir e2 →
          rayProj origin dir e ≤ rayProj origin dir e2) ∧
    (∀ (origin dir : Vector3) (l : List Enemy),
      (∃ (k : ℕ) (e2 : Enemy), l[k]? = some e2 ∧ hitCand origin dir e2) →
      (raycast origin dir l).isSome = true) := by
  constructor
  · intro origin dir l i h
    obtain ⟨e2, hk, hc, hmin⟩ := raycast_sound origin dir l i h
    exact ⟨e2, hk, hc.1, hc, hmin⟩
  · intro origin dir l h
    exact raycast_isSome origin dir l h

/-- C6 witness: with a far and a near enemy both on the ray, a hit is
returned (and by C6 it is the nearer one — evaluation gives index 1). -/
theorem C6_witness : (raycast ⟨0, 2, 0⟩ ⟨0, 0, -1⟩ rayEnemies).isSome = true :=
  C6_raycast_nearest.2 ⟨0, 2, 0⟩ ⟨0, 0, -1⟩ rayEnemies
    ⟨1, eNear, by with_unfolding_all decide, by with_unfolding_all decide⟩

/-- C8: the shotgun has 6 pellets; an accepted shotgun fire intent spends
exactly 1 round whatever the pellets do; at the concrete session gSix one
intent kills 6 distinct enemies (kills 6, every enemy dead, ammo 8 → 7),
and at gTank the 6 pellets accumulate 6 × 20 damage on the single tank
without killing it. -/
theorem C8_shotgun :
    (WEAPONS WKind.shotgun).pellets = 6 ∧
    (∀ (g : Game) (env : ShootEnv),
      g.current_weapon = WKind.shotgun →
      ¬(0 < (g.weapons WKind.shotgun).cooldown ∨
        0 < (g.weapons WKind.shotgun).reloading ∨
        (g.weapons WKind.shotgun).ammo ≤ 0) →
      ((g.shoot env).weapons WKind.shotgun).ammo =
        (g.weapons WKind.shotgun).ammo - 1) ∧
    ((gSix.shoot senvSix).kills = 6 ∧
      (∀ e ∈ (gSix.shoot senvSix).enemies, e.alive = false) ∧
      (gSix.shoot senvSix).enemies.length = 6 ∧
      ((gSix.shoot senvSix).weapons WKind.shotgun).ammo = 7) ∧
    ((gTank.shoot senvTank).enemies.map (fun e => e.health) = [150 - 6 * 20] ∧
      (gTank.shoot senvTank).kills = 0 ∧
      ((gTank.shoot senvTank).weapons WKind.shotgun).ammo = 7) := by
  refine ⟨rfl, ?_, by with_unfolding_all decide, by with_unfolding_all decide⟩
  intro g env hcur hguard
  unfold Game.shoot
  dsimp only
  rw [hcur]
  rw [if_neg hguard]
  rw [foldl_pellets_weapons, screen_shake_weapons, setW_weapons_self]

/-- C8 witness: the concrete six-kill intent spends exactly one round. -/
theorem C8_witness :
    ((gSix.shoot senvSix).weapons WKind.shotgun).ammo =
      (gSix.weapons WKind.shotgun).ammo - 1 :=
  C8_shotgun.2.1 gSix senvSix rfl (by with_unfolding_all decide)

/-- C10: Vector3.normalize is total — for a vector of length 0 it takes
the guard's else branch and returns the zero vector instead of dividing
by zero; in particular the zero vector normalizes to itself. -/
theorem C10_normalize_total :
    (∀ v : Vector3R, v.length = 0 → v.normalize = ⟨0, 0, 0⟩) ∧
    Vector3R.normalize ⟨0, 0, 0⟩ = ⟨0, 0, 0⟩ := by
  have h1 : ∀ v : Vector3R, v.length = 0 → v.normalize = ⟨0, 0, 0⟩ := by
    intro v h
    unfold Vector3R.normalize
    rw [if_neg (by rw [h]; exact lt_irrefl 0)]
  refine ⟨h1, h1 _ ?_⟩
  simp [Vector3R.length]

/-- C10 witness: the degenerate zero-length input. -/
theorem C10_witness : Vector3R.normalize ⟨0, 0, 0⟩ = ⟨0, 0, 0⟩ :=
  C10_normalize_total.1 ⟨0, 0, 0⟩ (by simp [Vector3R.length])

end Claims

end FPS
